import Mathlib

/-!
Shallow embedding of the detection-aggregator core of the `ai-image`
repository (`src/main.py`): the two provider call functions
`call_aiornot_api` and `call_sightengine_api`, the EXIF helpers
`get_exif_data` and `convert_dms_to_degrees`, and the upload endpoint
`create_upload_file`.

Conventions of the embedding:
* Python floats are modelled as rationals (`ℚ`); the normalization
  policy in the source is exact threshold arithmetic, not float-rounding
  dependent.
* An outbound HTTP call is modelled by its observable outcome: either an
  exception (network failure, non-2xx raised by `raise_for_status`,
  JSON parse error — all of which land in the same `except` clause of the
  source) carrying the rendered exception message, or a parsed JSON body
  restricted to the fields the source navigates.
* `requests.post` inside each provider function is executed exactly once,
  unconditionally, on every execution path (it is the first effectful
  statement of the `try` block); the embedding therefore returns the
  number of network requests issued alongside the result, which is `1`
  by the straight-line structure of the source.
* Python truthiness on the values the source tests (`None`, tuples,
  strings, floats) is modelled explicitly where tested
  (`if dms and ref ...`, `if lat and lon:`, `if gps_info:`).
-/

namespace AiImage

/-- A confidence value as produced by the source: either a number or the
string sentinel `"N/A"` (the source stores heterogeneous values in the
same dict field). -/
inductive ConfVal where
  | num : ℚ → ConfVal
  | str : String → ConfVal
deriving Repr, DecidableEq

/-- The common per-provider record assembled by both provider functions:
`{"service": ..., "status": ..., "verdict": ..., "confidence": ...}`. -/
structure ProviderResult where
  service : String
  status : String
  verdict : String
  confidence : ConfVal
deriving Repr, DecidableEq

/-- Outcome of one outbound HTTP call, as observed by the `try` block of a
provider function: `exn msg` is any exception (connection error, non-2xx
status raised by `raise_for_status`, malformed JSON) with its rendered
message `str(e)`; `ok body` is a 2xx response with parseable JSON. -/
inductive HttpOutcome (α : Type) where
  | exn : String → HttpOutcome α
  | ok : α → HttpOutcome α
deriving Repr, DecidableEq

/-- The part of an AI or Not JSON body the source navigates:
`report.ai_generated.verdict` (a string, or absent at any step of the
`.get` chain) and `report.ai_generated.ai.confidence` (a number, or
absent). -/
structure AiornotResponse where
  verdict : Option String
  confidence : Option ℚ
deriving Repr, DecidableEq

/-- Python `str.capitalize()`: first character uppercased, the rest
lowercased. -/
def pyCapitalize (s : String) : String :=
  match s.data with
  | [] => ""
  | c :: cs => String.mk (c.toUpper :: cs.map Char.toLower)

/-- Embedding of `call_aiornot_api` (src/main.py lines 425-436).
`key` is the module-level `AIORNOT_API_KEY` (`os.environ.get`, hence
`Option`). The source never tests `key`: it interpolates it into the
`Authorization` header and posts unconditionally, so the returned request
count is `1` for every value of `key`. On any exception the `except`
clause returns the fixed Failed record; on a 2xx JSON body the chained
`.get` defaults supply `"unknown"` for a missing verdict (then
`.capitalize()`) and the string `"N/A"` for a missing confidence. -/
def call_aiornot_api (key : Option String) (net : HttpOutcome AiornotResponse) :
    ProviderResult × Nat :=
  match key, net with
  | _, .exn _ =>
      (⟨"AI or Not", "Failed", "Error", .num 0⟩, 1)
  | _, .ok r =>
      (⟨"AI or Not", "Success", pyCapitalize (r.verdict.getD "unknown"),
        match r.confidence with
        | some c => .num c
        | none => .str "N/A"⟩, 1)

/-- The part of a Sightengine JSON body the source navigates:
`type.ai_generated`. `missing` — no `type` key or no `ai_generated` key
inside it (or the whole body falsy); `probNone` — the key is present but
its value is JSON `null`; `prob p` — a numeric probability. -/
inductive SEResponse where
  | missing : SEResponse
  | probNone : SEResponse
  | prob : ℚ → SEResponse
deriving Repr, DecidableEq

/-- Embedding of `call_sightengine_api` (src/main.py lines 438-486).
`user`/`secret` are the module-level credentials; the source passes them
as query parameters without testing them, so the request count is `1`
regardless. On a numeric probability `p` the source applies the strict
threshold: `p > 0.5` gives verdict "AI-Generated" with confidence `p`,
otherwise "Human-Made" with confidence `1 - p`. On an exception the
verdict is the interpolation `f"Error: {e}"`, not the bare "Error". -/
def call_sightengine_api (user secret : Option String)
    (net : HttpOutcome SEResponse) : ProviderResult × Nat :=
  match user, secret, net with
  | _, _, .exn e =>
      (⟨"Sightengine AI", "Failed", "Error: " ++ e, .num 0⟩, 1)
  | _, _, .ok body =>
      match body with
      | .missing =>
          (⟨"Sightengine AI", "Success",
            "Unknown (API response missing 'type' or 'ai_generated' within 'type')",
            .num 0⟩, 1)
      | .probNone =>
          (⟨"Sightengine AI", "Success",
            "Unknown (Prob not found in 'type'/'ai_generated')", .num 0⟩, 1)
      | .prob p =>
          if p > 1/2 then
            (⟨"Sightengine AI", "Success", "AI-Generated", .num p⟩, 1)
          else
            (⟨"Sightengine AI", "Success", "Human-Made", .num (1 - p)⟩, 1)

/-- Embedding of `convert_dms_to_degrees` (src/main.py lines 519-528).
`dms` is `gps_info.get(k)`: `none` for an absent tag, otherwise the tuple
of rationals; `ref` is the hemisphere letter tag, `none` when absent.
The source guard `if dms and ref and len(dms) == 3:` uses Python
truthiness: `None` and the empty tuple/string are falsy, so the success
path requires a present tuple of length exactly 3 (length 3 implies
non-empty, hence truthy) and a present non-empty string. -/
def convert_dms_to_degrees (dms : Option (List ℚ)) (ref : Option String) :
    Option ℚ :=
  match dms, ref with
  | some (d :: m :: s :: []), some r =>
      if r = "" then none
      else
        let decimal_degrees := d + m / 60 + s / 3600
        if r = "S" ∨ r = "W" then some (-decimal_degrees)
        else some decimal_degrees
  | _, _ => none

/-- The four GPS sub-IFD tags the source reads: `gps_info.get(2)` /
`gps_info.get(1)` for latitude DMS and reference, `gps_info.get(4)` /
`gps_info.get(3)` for longitude. Each may be absent. -/
structure GpsIfd where
  lat_dms : Option (List ℚ)
  lat_ref : Option String
  lon_dms : Option (List ℚ)
  lon_ref : Option String
deriving Repr, DecidableEq

/-- The EXIF structure `get_exif_data` walks after a successful decode:
the rendered `(tag_name, value)` pairs of `exif_data.items()` (each side
already rendered to the string the f-string would produce), and the GPS
sub-IFD. `gps = some g` models a truthy (non-empty) `get_ifd(IFD.GPSInfo)`
dict; `gps = none` models an absent/empty one (falsy). -/
structure ExifData where
  items : List (String × String)
  gps : Option GpsIfd
deriving Repr, DecidableEq

/-- What decoding the uploaded bytes with PIL yields, as observed by
`get_exif_data`: `exn` — `Image.open`/`getexif` (or any later statement)
raised, landing in the `except` clause; `noExif` — decode succeeded but
`getexif()` is falsy (no tags); `hasExif e` — a non-empty tag dict. -/
inductive DecodeOutcome where
  | exn : DecodeOutcome
  | noExif : DecodeOutcome
  | hasExif : ExifData → DecodeOutcome
deriving Repr, DecidableEq

/-- Rendering of a rational coordinate into the map URL. The source
interpolates the Python float; the embedding abstracts the digit string
via `toString` on `ℚ` — no claim depends on the exact digits. -/
def coordStr (q : ℚ) : String := toString q

/-- The fixed placeholder returned from the `except` clause of
`get_exif_data`. -/
def couldNotReadMsg : String := "Could not read EXIF data."

/-- The fixed string returned when `getexif()` is falsy. -/
def noExifMsg : String :=
  "<strong>Warning:</strong> No EXIF data detected in this image.<br>"

/-- The map-link fragment appended when the GPS guard passes. -/
def gpsLink (lat lon : ℚ) : String :=
  "GPS Location: <a href='https://www.google.com/maps?q=" ++ coordStr lat
    ++ "," ++ coordStr lon ++ "' target='_blank'>View on Map</a><br>"

/-- The `<strong>EXIF Data:</strong>` header plus one `name: value<br>`
line per tag, as built by the source loop. -/
def exifBody (e : ExifData) : String :=
  "<strong>EXIF Data:</strong><br>"
    ++ String.join (e.items.map (fun it => it.1 ++ ": " ++ it.2 ++ "<br>"))

/-- Embedding of `get_exif_data` (src/main.py lines 499-517). Any
exception returns the fixed `couldNotReadMsg`; a falsy `getexif()`
returns `noExifMsg`; otherwise the tag lines are rendered, and — when the
GPS sub-IFD is truthy — the source computes both conversions and appends
the map link under the Python-truthiness guard `if lat and lon:`, which
holds only when both conversions returned a value *and* neither value is
the falsy float `0.0`. -/
def get_exif_data (d : DecodeOutcome) : String :=
  match d with
  | .exn => couldNotReadMsg
  | .noExif => noExifMsg
  | .hasExif e =>
      let exif_info := exifBody e
      match e.gps with
      | none => exif_info
      | some g =>
          let lat := convert_dms_to_degrees g.lat_dms g.lat_ref
          let lon := convert_dms_to_degrees g.lon_dms g.lon_ref
          match lat, lon with
          | some la, some lo =>
              if la ≠ 0 ∧ lo ≠ 0 then exif_info ++ gpsLink la lo
              else exif_info
          | _, _ => exif_info

/-- The module-level configuration read from the environment at process
start (src/main.py lines 35-37): each key is `none` when the environment
variable is absent. -/
structure Config where
  aiornot_api_key : Option String
  sightengine_api_user : Option String
  sightengine_api_secret : Option String
deriving Repr, DecidableEq

/-- `TEMP_IMAGE_DIR` (src/main.py line 136). -/
def TEMP_IMAGE_DIR : String := "/tmp/ai_media_detector_images"

/-- `unique_filename = f"{uuid.uuid4()}_{file.filename}"` with the drawn
UUID string passed in explicitly. -/
def unique_filename (u filename : String) : String := u ++ "_" ++ filename

/-- `temp_file_path = os.path.join(TEMP_IMAGE_DIR, unique_filename)`. -/
def temp_file_path (u filename : String) : String :=
  TEMP_IMAGE_DIR ++ "/" ++ unique_filename u filename

/-- The JSON-serializable structure the endpoint returns. -/
structure AggregatedReport where
  filename : String
  aggregated_results : List ProviderResult
  exif_data : String
  google_reverse_search_url : String
  user_email : String
deriving Repr, DecidableEq

/-- `asyncio.gather(t0, t1, t2)`: the three tasks run concurrently, but
gather resolves with their results *in argument position order*,
whatever order they complete in. `completionOrder` records which task
finished first/second/third; by gather's contract it does not influence
the returned tuple, which the embedding makes explicit by ignoring it. -/
def gather3 {α β γ : Type} (completionOrder : List (Fin 3))
    (r0 : α) (r1 : β) (r2 : γ) : α × β × γ :=
  let _ := completionOrder
  (r0, r1, r2)

/-- Embedding of the body of `create_upload_file` (src/main.py lines
879-921) after `content` has been read. The per-task external worlds are
passed in: `aiornotNet`/`seNet` are the HTTP outcomes each provider task
observes, `decodeOutcome` is what PIL decoding of `content` yields, `u`
is the UUID string drawn for this request, `baseUrl` is
`os.environ.get("BASE_URL", "")` (already defaulted), and
`completionOrder` is the order in which the three gathered tasks happen
to complete. The endpoint builds `aggregated_results` as the fixed list
`[aiornot_result, sightengine_result]`, writes the file under
`temp_file_path`, and returns the report unconditionally. -/
def create_upload_file (cfg : Config) (filename mime userEmail : String)
    (aiornotNet : HttpOutcome AiornotResponse) (seNet : HttpOutcome SEResponse)
    (decodeOutcome : DecodeOutcome) (u baseUrl : String)
    (completionOrder : List (Fin 3)) : AggregatedReport :=
  let _ := mime
  let results := gather3 completionOrder
    (get_exif_data decodeOutcome)
    (call_aiornot_api cfg.aiornot_api_key aiornotNet).1
    (call_sightengine_api cfg.sightengine_api_user cfg.sightengine_api_secret
      seNet).1
  let exif_data := results.1
  let aiornot_result := results.2.1
  let sightengine_result := results.2.2
  let aggregated_results := [aiornot_result, sightengine_result]
  let public_image_url :=
    baseUrl ++ "/temp_images/" ++ unique_filename u filename
  let google_reverse_search_url :=
    "https://www.google.com/searchbyimage?image_url=" ++ public_image_url
  { filename := filename
    aggregated_results := aggregated_results
    exif_data := exif_data
    google_reverse_search_url := google_reverse_search_url
    user_email := userEmail }

/-- `true` when the first character list is an initial segment of the
second. -/
def seqStartsWith : List Char → List Char → Bool
  | [], _ => true
  | _ :: _, [] => false
  | p :: ps, c :: cs => p == c && seqStartsWith ps cs

/-- `true` when the first character list occurs contiguously somewhere
inside the second. -/
def seqContains (pat : List Char) : List Char → Bool
  | [] => seqStartsWith pat []
  | c :: t => seqStartsWith pat (c :: t) || seqContains pat t

/-- `true` when the string contains the map-link marker text
`View on Map` as a substring (used to state link-presence claims about
the rendered metadata report). -/
def hasMapLink (s : String) : Bool :=
  seqContains "View on Map".data s.data

/-! ## Helper lemmas shared by the claim theorems -/

theorem call_aiornot_api_service (k : Option String)
    (n : HttpOutcome AiornotResponse) :
    ((call_aiornot_api k n).1).service = "AI or Not" := by
  cases n <;> rfl

theorem call_aiornot_api_count (k : Option String)
    (n : HttpOutcome AiornotResponse) :
    (call_aiornot_api k n).2 = 1 := by
  cases n <;> rfl

theorem call_sightengine_api_service (us ss : Option String)
    (n : HttpOutcome SEResponse) :
    ((call_sightengine_api us ss n).1).service = "Sightengine AI" := by
  cases n with
  | exn e => rfl
  | ok b =>
      cases b with
      | missing => rfl
      | probNone => rfl
      | prob p =>
          simp only [call_sightengine_api]
          split <;> rfl

theorem call_sightengine_api_count (us ss : Option String)
    (n : HttpOutcome SEResponse) :
    (call_sightengine_api us ss n).2 = 1 := by
  cases n with
  | exn e => rfl
  | ok b =>
      cases b with
      | missing => rfl
      | probNone => rfl
      | prob p =>
          simp only [call_sightengine_api]
          split <;> rfl

theorem call_aiornot_api_status (k : Option String)
    (n : HttpOutcome AiornotResponse) :
    ((call_aiornot_api k n).1).status = "Success" ∨
      ((call_aiornot_api k n).1).status = "Failed" := by
  cases n with
  | exn e => exact Or.inr rfl
  | ok r => exact Or.inl rfl

theorem call_sightengine_api_status (us ss : Option String)
    (n : HttpOutcome SEResponse) :
    ((call_sightengine_api us ss n).1).status = "Success" ∨
      ((call_sightengine_api us ss n).1).status = "Failed" := by
  cases n with
  | exn e => exact Or.inr rfl
  | ok b =>
      cases b with
      | missing => exact Or.inl rfl
      | probNone => exact Or.inl rfl
      | prob p =>
          simp only [call_sightengine_api]
          split <;> exact Or.inl rfl

theorem call_sightengine_api_prob (us ss : Option String) (p : ℚ) :
    call_sightengine_api us ss (.ok (.prob p)) =
      (if p > 1/2 then
        (⟨"Sightengine AI", "Success", "AI-Generated", .num p⟩, 1)
       else
        (⟨"Sightengine AI", "Success", "Human-Made", .num (1 - p)⟩, 1)) := rfl

theorem create_upload_file_results (cfg : Config)
    (fn mime em : String) (an : HttpOutcome AiornotResponse)
    (sn : HttpOutcome SEResponse) (d : DecodeOutcome) (u b : String)
    (ord : List (Fin 3)) :
    (create_upload_file cfg fn mime em an sn d u b ord).aggregated_results =
      [(call_aiornot_api cfg.aiornot_api_key an).1,
       (call_sightengine_api cfg.sightengine_api_user
         cfg.sightengine_api_secret sn).1] := rfl

theorem create_upload_file_exif (cfg : Config)
    (fn mime em : String) (an : HttpOutcome AiornotResponse)
    (sn : HttpOutcome SEResponse) (d : DecodeOutcome) (u b : String)
    (ord : List (Fin 3)) :
    (create_upload_file cfg fn mime em an sn d u b ord).exif_data =
      get_exif_data d := rfl

/-! ## Claim theorems -/

/-- C1: for every upload request reaching the aggregation step, the
returned `aggregated_results` list contains exactly one ProviderResult
per configured provider — AI or Not first, then Sightengine, in that
fixed order — for every combination of per-provider HTTP outcomes
(success or failure) and independently of the order in which the
gathered tasks complete; no entry is ever omitted. -/
theorem c1_full_width_fixed_order (cfg : Config) (fn mime em : String)
    (an : HttpOutcome AiornotResponse) (sn : HttpOutcome SEResponse)
    (d : DecodeOutcome) (u b : String) (ord ord2 : List (Fin 3)) :
    (create_upload_file cfg fn mime em an sn d u b ord).aggregated_results.length
        = 2 ∧
    (create_upload_file cfg fn mime em an sn d u b ord).aggregated_results.map
        ProviderResult.service = ["AI or Not", "Sightengine AI"] ∧
    (create_upload_file cfg fn mime em an sn d u b ord).aggregated_results =
      (create_upload_file cfg fn mime em an sn d u b ord2).aggregated_results := by
  refine ⟨rfl, ?_, rfl⟩
  rw [create_upload_file_results]
  simp [call_aiornot_api_service, call_sightengine_api_service]

/-- C2: the Sightengine normalization maps a numeric probability `p` to
verdict "AI-Generated" with confidence `p` when `p > 0.5`, and to
verdict "Human-Made" with confidence `1 - p` otherwise; at the boundary
`p = 0.5` exactly, the strict comparison yields "Human-Made" with
confidence `0.5`. -/
theorem c2_sightengine_threshold (us ss : Option String) (p : ℚ) :
    (p > 1/2 →
      ((call_sightengine_api us ss (.ok (.prob p))).1.verdict = "AI-Generated" ∧
       (call_sightengine_api us ss (.ok (.prob p))).1.confidence = .num p)) ∧
    (¬ p > 1/2 →
      ((call_sightengine_api us ss (.ok (.prob p))).1.verdict = "Human-Made" ∧
       (call_sightengine_api us ss (.ok (.prob p))).1.confidence = .num (1 - p))) ∧
    (call_sightengine_api us ss (.ok (.prob (1/2)))).1.verdict = "Human-Made" ∧
    (call_sightengine_api us ss (.ok (.prob (1/2)))).1.confidence = .num (1/2) := by
  refine ⟨fun h => ?_, fun h => ?_, ?_, ?_⟩
  · rw [call_sightengine_api_prob, if_pos h]
    exact ⟨rfl, rfl⟩
  · rw [call_sightengine_api_prob, if_neg h]
    exact ⟨rfl, rfl⟩
  · rw [call_sightengine_api_prob, if_neg (by norm_num)]
  · rw [call_sightengine_api_prob, if_neg (by norm_num)]
    norm_num

/-- Witness for C2: at `p = 0.7` the result is AI-Generated with
confidence `0.7`; at `p = 0.3` it is Human-Made with confidence `0.7`. -/
theorem c2_sightengine_threshold_witness :
    ((call_sightengine_api none none (.ok (.prob (7/10)))).1.verdict
        = "AI-Generated" ∧
     (call_sightengine_api none none (.ok (.prob (7/10)))).1.confidence
        = .num (7/10)) ∧
    ((call_sightengine_api none none (.ok (.prob (3/10)))).1.verdict
        = "Human-Made" ∧
     (call_sightengine_api none none (.ok (.prob (3/10)))).1.confidence
        = .num (1 - 3/10)) :=
  ⟨(c2_sightengine_threshold none none (7/10)).1 (by norm_num),
   (c2_sightengine_threshold none none (3/10)).2.1 (by norm_num)⟩

/-- C3 counterexample: a failing Sightengine call does not carry the
verdict exactly `"Error"` — with exception message `"timeout"` the
verdict is the interpolation `"Error: timeout"`, refuting the claim that
every failing provider call yields verdict exactly `"Error"`. -/
theorem c3_error_verdict_counterexample :
    (call_sightengine_api none none (.exn "timeout")).1.status = "Failed" ∧
    (call_sightengine_api none none (.exn "timeout")).1.verdict
        = "Error: timeout" ∧
    (call_sightengine_api none none (.exn "timeout")).1.verdict ≠ "Error" := by
  refine ⟨rfl, rfl, ?_⟩
  decide

/-- C3 amended: a provider call that raises (or sees a non-2xx status
raised by `raise_for_status`) yields a ProviderResult with status
"Failed"; the exception is absorbed inside the task (both embedded call
functions are total, returning a result for every outcome); the verdict
is exactly "Error" for AI or Not but `"Error: "` followed by the
exception message for Sightengine; and sibling results plus the metadata
string are unaffected — each aggregated entry is a function of its own
provider's outcome only. -/
theorem c3_failure_absorbed_amended (k us ss : Option String) (msg : String) :
    (call_aiornot_api k (.exn msg)).1
        = ⟨"AI or Not", "Failed", "Error", .num 0⟩ ∧
    (call_sightengine_api us ss (.exn msg)).1
        = ⟨"Sightengine AI", "Failed", "Error: " ++ msg, .num 0⟩ ∧
    (∀ (cfg : Config) (fn mime em : String) (an : HttpOutcome AiornotResponse)
       (sn : HttpOutcome SEResponse) (d : DecodeOutcome) (u b : String)
       (ord : List (Fin 3)),
      (create_upload_file cfg fn mime em an sn d u b ord).aggregated_results =
        [(call_aiornot_api cfg.aiornot_api_key an).1,
         (call_sightengine_api cfg.sightengine_api_user
           cfg.sightengine_api_secret sn).1] ∧
      (create_upload_file cfg fn mime em an sn d u b ord).exif_data =
        get_exif_data d) :=
  ⟨rfl, rfl, fun _ _ _ _ _ _ _ _ _ _ => ⟨rfl, rfl⟩⟩

/-- C4 counterexample: with the AI or Not credentials absent
(`key = none`) and the resulting request failing, the provider entry has
status "Failed" — not "NotConfigured" — and exactly one network request
was still issued, refuting the claim that missing credentials produce a
"NotConfigured"/"N/A" entry without a network call. -/
theorem c4_not_configured_counterexample :
    (call_aiornot_api none (.exn "401 Client Error")).1.status = "Failed" ∧
    (call_aiornot_api none (.exn "401 Client Error")).1.status
        ≠ "NotConfigured" ∧
    (call_aiornot_api none (.exn "401 Client Error")).2 = 1 := by
  refine ⟨rfl, ?_, rfl⟩
  decide

/-- C4 amended: when a provider's credentials are absent, the code still
issues exactly one network request to that provider (interpolating the
absent credentials), and the resulting ProviderResult has status
"Success" or "Failed" according to the call's outcome; no
"NotConfigured" status, "N/A" verdict, or skipped call is ever
produced. -/
theorem c4_missing_credentials_amended (an : HttpOutcome AiornotResponse)
    (sn : HttpOutcome SEResponse) :
    (call_aiornot_api none an).2 = 1 ∧
    (call_sightengine_api none none sn).2 = 1 ∧
    ((call_aiornot_api none an).1.status = "Success" ∨
      (call_aiornot_api none an).1.status = "Failed") ∧
    (call_aiornot_api none an).1.status ≠ "NotConfigured" ∧
    ((call_sightengine_api none none sn).1.status = "Success" ∨
      (call_sightengine_api none none sn).1.status = "Failed") ∧
    (call_sightengine_api none none sn).1.status ≠ "NotConfigured" := by
  refine ⟨call_aiornot_api_count none an, call_sightengine_api_count none none sn,
    call_aiornot_api_status none an, ?_,
    call_sightengine_api_status none none sn, ?_⟩
  · rcases call_aiornot_api_status none an with h | h <;> rw [h] <;> decide
  · rcases call_sightengine_api_status none none sn with h | h <;> rw [h] <;> decide

/-- C5: for every combination of per-provider and metadata outcomes —
including every failure mode — the aggregation returns a normal report:
the result list always has one entry per provider, every entry's status
is "Success" or "Failed" (failures were converted to data inside their
own task), and a metadata failure degrades to the fixed placeholder
string rather than an error. -/
theorem c5_no_failure_surfaced (cfg : Config) (fn mime em : String)
    (an : HttpOutcome AiornotResponse) (sn : HttpOutcome SEResponse)
    (d : DecodeOutcome) (u b : String) (ord : List (Fin 3)) :
    (create_upload_file cfg fn mime em an sn d u b ord).aggregated_results.length
        = 2 ∧
    (∀ pr ∈ (create_upload_file cfg fn mime em an sn d u b ord).aggregated_results,
      pr.status = "Success" ∨ pr.status = "Failed") ∧
    (d = .exn →
      (create_upload_file cfg fn mime em an sn d u b ord).exif_data
        = couldNotReadMsg) := by
  refine ⟨rfl, ?_, ?_⟩
  · intro pr hpr
    rw [create_upload_file_results] at hpr
    rcases List.mem_cons.mp hpr with h | h
    · rw [h]; exact call_aiornot_api_status _ _
    · rcases List.mem_cons.mp h with h2 | h2
      · rw [h2]; exact call_sightengine_api_status _ _ _
      · exact absurd h2 (List.not_mem_nil pr)
  · intro hd
    rw [create_upload_file_exif, hd]
    rfl

/-- Witness for C5: with both providers and the decoder all failing, the
report still has two entries (both "Failed") and the placeholder
metadata string. -/
theorem c5_no_failure_surfaced_witness :
    (create_upload_file ⟨none, none, none⟩ "a.png" "image/png" "u@example.com"
        (.exn "boom") (.exn "boom") .exn "id" "" []).aggregated_results.length
      = 2 ∧
    ((call_aiornot_api (Config.mk none none none).aiornot_api_key
        (.exn "boom")).1.status = "Success" ∨
      (call_aiornot_api (Config.mk none none none).aiornot_api_key
        (.exn "boom")).1.status = "Failed") ∧
    (create_upload_file ⟨none, none, none⟩ "a.png" "image/png" "u@example.com"
        (.exn "boom") (.exn "boom") .exn "id" "" []).exif_data
      = couldNotReadMsg :=
  ⟨(c5_no_failure_surfaced ⟨none, none, none⟩ "a.png" "image/png" "u@example.com"
      (.exn "boom") (.exn "boom") .exn "id" "" []).1,
   (c5_no_failure_surfaced ⟨none, none, none⟩ "a.png" "image/png" "u@example.com"
      (.exn "boom") (.exn "boom") .exn "id" "" []).2.1
      (call_aiornot_api (Config.mk none none none).aiornot_api_key
        (.exn "boom")).1 (by rw [create_upload_file_results]; exact List.mem_cons_self _ _),
   (c5_no_failure_surfaced ⟨none, none, none⟩ "a.png" "image/png" "u@example.com"
      (.exn "boom") (.exn "boom") .exn "id" "" []).2.2 rfl⟩

theorem convert_dms_eq (d m s : ℚ) (r : String) (h1 : r ≠ "") :
    convert_dms_to_degrees (some [d, m, s]) (some r) =
      if r = "S" ∨ r = "W" then some (-(d + m / 60 + s / 3600))
      else some (d + m / 60 + s / 3600) := by
  show (if r = "" then none
      else if r = "S" ∨ r = "W" then some (-(d + m / 60 + s / 3600))
      else some (d + m / 60 + s / 3600)) = _
  rw [if_neg h1]

theorem convert_dms_lat_example :
    convert_dms_to_degrees (some [40, 26, 46]) (some "N")
      = some (72803 / 1800) := by
  rw [convert_dms_eq 40 26 46 "N" (by decide), if_neg (by decide)]
  norm_num [Option.some.injEq]

theorem convert_dms_lon_example :
    convert_dms_to_degrees (some [79, 58, 56]) (some "W")
      = some (-(17996 / 225)) := by
  rw [convert_dms_eq 79 58 56 "W" (by decide), if_pos (by decide)]
  norm_num [Option.some.injEq]

theorem convert_dms_zero_example :
    convert_dms_to_degrees (some [0, 0, 0]) (some "N") = some 0 := by
  rw [convert_dms_eq 0 0 0 "N" (by decide), if_neg (by decide)]
  norm_num [Option.some.injEq]

theorem unique_filename_inj (u1 u2 fn : String)
    (hlen : u1.length = u2.length)
    (h : unique_filename u1 fn = unique_filename u2 fn) : u1 = u2 := by
  have hc : ((u1 ++ "_") ++ fn).data = ((u2 ++ "_") ++ fn).data :=
    congrArg String.data h
  rw [String.data_append, String.data_append, String.data_append,
      String.data_append, List.append_assoc, List.append_assoc] at hc
  have hdl : u1.data = u2.data := List.append_inj_left hc hlen
  exact String.ext hdl

/-- C6: the DMS-to-decimal conversion returns
`d + m/60 + s/3600`, negated exactly when the reference letter is `S` or
`W`; on the example `40°26'46" N` / `79°58'56" W` it yields exactly
`72803/1800` and `-(17996/225)`, which are within `10⁻⁴` of the quoted
approximations `40.4461` and `-79.9822`. -/
theorem c6_dms_to_decimal (d m s : ℚ) (r : String) (hr : r ≠ "") :
    convert_dms_to_degrees (some [d, m, s]) (some r) =
      some (if r = "S" ∨ r = "W" then -(d + m / 60 + s / 3600)
            else d + m / 60 + s / 3600) ∧
    convert_dms_to_degrees (some [40, 26, 46]) (some "N")
        = some (72803 / 1800) ∧
    convert_dms_to_degrees (some [79, 58, 56]) (some "W")
        = some (-(17996 / 225)) ∧
    |(72803 : ℚ) / 1800 - 40.4461| < 1 / 10000 ∧
    |(-(17996 : ℚ) / 225) - (-79.9822)| < 1 / 10000 := by
  refine ⟨?_, convert_dms_lat_example, convert_dms_lon_example, ?_, ?_⟩
  · show (if r = "" then none
        else if r = "S" ∨ r = "W" then some (-(d + m / 60 + s / 3600))
        else some (d + m / 60 + s / 3600)) = _
    rw [if_neg hr]
    split <;> rfl
  · rw [abs_lt]; constructor <;> norm_num
  · rw [abs_lt]; constructor <;> norm_num

/-- Witness for C6: instantiated at the example latitude triple with
reference `"N"`. -/
theorem c6_dms_to_decimal_witness :
    convert_dms_to_degrees (some [40, 26, 46]) (some "N")
      = some (72803 / 1800) :=
  (c6_dms_to_decimal 40 26 46 "N" (by decide)).2.1

/-- C7 counterexample: with a GPS block whose latitude is `0°0'0" N`
(which converts successfully to decimal `0`) and whose longitude is
`79°58'56" W` (which converts successfully), the rendered metadata
contains no map link — refuting the claim that a link is included
whenever both conversions succeed, including at a zero coordinate. -/
theorem c7_zero_coordinate_counterexample :
    convert_dms_to_degrees (some [0, 0, 0]) (some "N") = some 0 ∧
    convert_dms_to_degrees (some [79, 58, 56]) (some "W")
        = some (-(17996 / 225)) ∧
    hasMapLink (get_exif_data (.hasExif
      ⟨[], some ⟨some [0, 0, 0], some "N", some [79, 58, 56], some "W"⟩⟩))
      = false := by
  have hlat := convert_dms_zero_example
  have hlon := convert_dms_lon_example
  refine ⟨hlat, hlon, ?_⟩
  have hout : get_exif_data (.hasExif
      ⟨[], some ⟨some [0, 0, 0], some "N", some [79, 58, 56], some "W"⟩⟩)
      = exifBody ⟨[], some ⟨some [0, 0, 0], some "N",
          some [79, 58, 56], some "W"⟩⟩ := by
    simp only [get_exif_data, hlat, hlon]
    rw [if_neg]
    exact fun hcon => hcon.1 rfl
  rw [hout]
  decide

/-- C7 amended: for an image whose GPS sub-block is present, the map
link is appended exactly when both DMS triples convert successfully
*and* both converted decimal values are nonzero; a successful conversion
to `0` (Python falsy `0.0` under the source's `if lat and lon:` test)
suppresses the link, and a failed conversion omits it. -/
theorem c7_map_link_amended (e : ExifData) (g : GpsIfd)
    (hg : e.gps = some g) :
    (∀ la lo, convert_dms_to_degrees g.lat_dms g.lat_ref = some la →
      convert_dms_to_degrees g.lon_dms g.lon_ref = some lo →
      la ≠ 0 → lo ≠ 0 →
      get_exif_data (.hasExif e) = exifBody e ++ gpsLink la lo) ∧
    (∀ la lo, convert_dms_to_degrees g.lat_dms g.lat_ref = some la →
      convert_dms_to_degrees g.lon_dms g.lon_ref = some lo →
      (la = 0 ∨ lo = 0) →
      get_exif_data (.hasExif e) = exifBody e) ∧
    (convert_dms_to_degrees g.lat_dms g.lat_ref = none →
      get_exif_data (.hasExif e) = exifBody e) ∧
    (convert_dms_to_degrees g.lon_dms g.lon_ref = none →
      get_exif_data (.hasExif e) = exifBody e) := by
  obtain ⟨items, gps⟩ := e
  simp only at hg
  subst hg
  refine ⟨?_, ?_, ?_, ?_⟩
  · intro la lo hla hlo h0a h0b
    simp only [get_exif_data, hla, hlo]
    rw [if_pos ⟨h0a, h0b⟩]
  · intro la lo hla hlo h0
    simp only [get_exif_data, hla, hlo]
    rw [if_neg]
    rcases h0 with h0 | h0
    · exact fun hcon => hcon.1 h0
    · exact fun hcon => hcon.2 h0
  · intro hla
    simp only [get_exif_data, hla]
  · intro hlo
    simp only [get_exif_data, hlo]
    cases convert_dms_to_degrees g.lat_dms g.lat_ref <;> rfl

/-- Witness for C7 (amended): on the example GPS block with nonzero
coordinates the link is appended. -/
theorem c7_map_link_amended_witness :
    get_exif_data (.hasExif
      ⟨[], some ⟨some [40, 26, 46], some "N", some [79, 58, 56], some "W"⟩⟩)
      = exifBody
          ⟨[], some ⟨some [40, 26, 46], some "N", some [79, 58, 56], some "W"⟩⟩
        ++ gpsLink (72803 / 1800) (-(17996 / 225)) :=
  (c7_map_link_amended _ _ rfl).1 (72803 / 1800) (-(17996 / 225))
    convert_dms_lat_example convert_dms_lon_example
    (by norm_num) (by norm_num)

/-- C8 counterexample: a decode failure and a decoded image with no
EXIF tags return two *different* fixed strings, so the two cases are
distinguishable to the caller — refuting the claim that the same
placeholder value is returned in both cases. -/
theorem c8_same_placeholder_counterexample :
    get_exif_data .exn = "Could not read EXIF data." ∧
    get_exif_data .noExif
      = "<strong>Warning:</strong> No EXIF data detected in this image.<br>" ∧
    get_exif_data .exn ≠ get_exif_data .noExif := by
  refine ⟨rfl, rfl, ?_⟩
  decide

/-- C8 amended: both failure modes are non-fatal and return a fixed
string, but each mode has its own: decode failure returns
"Could not read EXIF data." while a tag-free image returns the
"No EXIF data detected" warning; since the two strings differ, the
caller can distinguish the cases. -/
theorem c8_two_placeholders_amended :
    get_exif_data .exn = couldNotReadMsg ∧
    get_exif_data .noExif = noExifMsg ∧
    couldNotReadMsg ≠ noExifMsg := by
  refine ⟨rfl, rfl, ?_⟩
  decide

/-- C9: two analyze calls with identical input bytes, filename, MIME
type, and identical provider outcomes produce identical
`aggregated_results` lists (order and values), for any completion
orders; and since the two calls draw distinct UUID strings (uuid4
renders to a fixed-length string, so the two draws have equal length),
the generated temporary filenames and stored file paths differ — the
second call does not collide with or overwrite the first call's file. -/
theorem c9_repeat_analysis (cfg : Config) (fn mime em : String)
    (an : HttpOutcome AiornotResponse) (sn : HttpOutcome SEResponse)
    (d : DecodeOutcome) (b : String) (ord ord2 : List (Fin 3))
    (u1 u2 : String) (hlen : u1.length = u2.length) (hne : u1 ≠ u2) :
    (create_upload_file cfg fn mime em an sn d u1 b ord).aggregated_results =
      (create_upload_file cfg fn mime em an sn d u2 b ord2).aggregated_results ∧
    unique_filename u1 fn ≠ unique_filename u2 fn ∧
    temp_file_path u1 fn ≠ temp_file_path u2 fn := by
  refine ⟨rfl, fun h => hne (unique_filename_inj u1 u2 fn hlen h), fun h => ?_⟩
  apply hne
  apply unique_filename_inj u1 u2 fn hlen
  have hc : (TEMP_IMAGE_DIR ++ "/").data ++ (unique_filename u1 fn).data
      = (TEMP_IMAGE_DIR ++ "/").data ++ (unique_filename u2 fn).data := by
    have hd := congrArg String.data h
    rw [temp_file_path, temp_file_path] at hd
    rw [show TEMP_IMAGE_DIR ++ "/" ++ unique_filename u1 fn
          = (TEMP_IMAGE_DIR ++ "/") ++ unique_filename u1 fn from rfl,
        show TEMP_IMAGE_DIR ++ "/" ++ unique_filename u2 fn
          = (TEMP_IMAGE_DIR ++ "/") ++ unique_filename u2 fn from rfl] at hd
    rw [String.data_append, String.data_append] at hd
    exact hd
  exact String.ext (List.append_cancel_left hc)

/-- Witness for C9: two concrete distinct equal-length identifiers give
identical result lists and distinct temp-file paths. -/
theorem c9_repeat_analysis_witness :
    (create_upload_file ⟨none, none, none⟩ "x.png" "image/png" "e@x"
        (.exn "n") (.exn "n") .exn "aaaa" "" []).aggregated_results =
      (create_upload_file ⟨none, none, none⟩ "x.png" "image/png" "e@x"
        (.exn "n") (.exn "n") .exn "bbbb" "" []).aggregated_results ∧
    unique_filename "aaaa" "x.png" ≠ unique_filename "bbbb" "x.png" ∧
    temp_file_path "aaaa" "x.png" ≠ temp_file_path "bbbb" "x.png" :=
  c9_repeat_analysis ⟨none, none, none⟩ "x.png" "image/png" "e@x"
    (.exn "n") (.exn "n") .exn "" [] [] "aaaa" "bbbb" rfl (by decide)

/-- C10: a 2xx AI or Not response with parseable JSON but missing
expected keys still yields status "Success": a missing
`report.ai_generated.verdict` defaults to `"unknown"` and is capitalized
to "Unknown", and a missing `report.ai_generated.ai.confidence`
defaults to the string sentinel "N/A". -/
theorem c10_aiornot_missing_keys (k : Option String)
    (v : Option String) (c : Option ℚ) :
    (call_aiornot_api k (.ok ⟨v, c⟩)).1.status = "Success" ∧
    (v = none → (call_aiornot_api k (.ok ⟨v, c⟩)).1.verdict = "Unknown") ∧
    (c = none → (call_aiornot_api k (.ok ⟨v, c⟩)).1.confidence = .str "N/A") := by
  refine ⟨rfl, fun hv => ?_, fun hc => ?_⟩
  · subst hv
    show pyCapitalize "unknown" = "Unknown"
    decide
  · subst hc
    rfl

/-- Witness for C10: with both keys missing the result is
Success/Unknown with the "N/A" confidence sentinel. -/
theorem c10_aiornot_missing_keys_witness :
    (call_aiornot_api none (.ok ⟨none, none⟩)).1.status = "Success" ∧
    (call_aiornot_api none (.ok ⟨none, none⟩)).1.verdict = "Unknown" ∧
    (call_aiornot_api none (.ok ⟨none, none⟩)).1.confidence = .str "N/A" :=
  ⟨(c10_aiornot_missing_keys none none none).1,
   (c10_aiornot_missing_keys none none none).2.1 rfl,
   (c10_aiornot_missing_keys none none none).2.2 rfl⟩

end AiImage
